import Mathlib

attribute [local semireducible] Rat.add Rat.mul Rat.inv Rat.sub

/-!
Verification of the edge-geometry engine of the graph-visualization repository:
the curve router (src/src/utils/edgeUtils.ts) and the interactive recomputation
loop (src/src/components/D3Graph.tsx).  Coordinates are embedded as rationals;
the JS `number` arithmetic used by the source is plain field arithmetic on the
values that occur here.
-/

namespace DagreViz

/-- A 2-D point, as in edgeUtils.ts (`interface Point`). -/
structure Point where
  x : ℚ
  y : ℚ
deriving DecidableEq

/-- A cubic Bezier curve (`interface BezierCurve`).  The source field `end`
is a Lean keyword, so it is named `endPt` here. -/
structure BezierCurve where
  start : Point
  control1 : Point
  control2 : Point
  endPt : Point
deriving DecidableEq

/-- Center-plus-size rectangle (`interface NodeBounds`). -/
structure NodeBounds where
  x : ℚ
  y : ℚ
  width : ℚ
  height : ℚ
deriving DecidableEq

/-- A node with its layout position (`PositionedGraphNode`); only the fields
the geometry engine reads are modelled. -/
structure PositionedGraphNode where
  id : String
  x : ℚ
  y : ℚ
deriving DecidableEq

/-- Connection side of an edge endpoint: 'left' | 'right'. -/
inductive Side where
  | left
  | right
deriving DecidableEq

/-- Edge access kind: 'ALLOW' | 'DENY' (compared case-insensitively in the
source, so modelled as a two-value enum). -/
inductive Access where
  | allow
  | deny
deriving DecidableEq

/-- An edge of the input graph (`interface GraphEdge`), with source/target
already resolved to id strings as D3Graph.tsx does. -/
structure Edge where
  source : String
  target : String
  access : Access
deriving DecidableEq

/-- edgeUtils.ts `isPointInNode`: inclusive containment in the rectangle of
half-width `width/2` and half-height `height/2` around `(x, y)`. -/
def isPointInNode (point : Point) (node : NodeBounds) : Bool :=
  decide (node.x - node.width / 2 ≤ point.x) &&
  decide (point.x ≤ node.x + node.width / 2) &&
  decide (node.y - node.height / 2 ≤ point.y) &&
  decide (point.y ≤ node.y + node.height / 2)

/-- edgeUtils.ts `getBezierPoint`: the standard cubic Bezier evaluation. -/
def getBezierPoint (curve : BezierCurve) (t : ℚ) : Point :=
  let mt := 1 - t
  let mt2 := mt * mt
  let mt3 := mt2 * mt
  let t2 := t * t
  let t3 := t2 * t
  ⟨mt3 * curve.start.x + 3 * mt2 * t * curve.control1.x +
     3 * mt * t2 * curve.control2.x + t3 * curve.endPt.x,
   mt3 * curve.start.y + 3 * mt2 * t * curve.control1.y +
     3 * mt * t2 * curve.control2.y + t3 * curve.endPt.y⟩

/-- edgeUtils.ts `doesCurveIntersectNodes`: with `samples = 20`, sample the
interior parameters `t = i / (samples - 1)` for `i = 1 .. samples - 2`
(18 interior points `t = 1/19 .. 18/19`) and report whether any sampled point
lies in the `nodeWidth x nodeHeight` rectangle of any node other than the
edge's own source and target (matched by id). -/
def doesCurveIntersectNodes (curve : BezierCurve) (nodes : List PositionedGraphNode)
    (nodeWidth nodeHeight : ℚ) (sourceId targetId : String) : Bool :=
  let samples : ℕ := 20
  (List.range' 1 (samples - 2)).any fun i =>
    let t : ℚ := (i : ℚ) / ((samples : ℚ) - 1)
    let point := getBezierPoint curve t
    nodes.any fun node =>
      if node.id = sourceId ∨ node.id = targetId then false
      else isPointInNode point ⟨node.x, node.y, nodeWidth, nodeHeight⟩

/-- edgeUtils.ts `calculateControlPoints` (the active version, lines 611-651):
the control offset is `min (max (|dx| * 0.5) 120) 200`, applied horizontally
in the direction of each connection side.  The `curvature` parameter is
declared with default 0.3 exactly as in the source — and, as in the source,
it is never read in the body. -/
def calculateControlPoints (start endPt : Point)
    (sourceConnectionSide targetConnectionSide : Side)
    (curvature : ℚ := 3 / 10) : Point × Point :=
  let dx := endPt.x - start.x
  let minControlDistance : ℚ := 120
  let maxControlDistance : ℚ := 200
  let horizontalDistance := |dx|
  let adaptiveDistance :=
    min (max (horizontalDistance * (1 / 2)) minControlDistance) maxControlDistance
  let sourceDirection : ℚ := if sourceConnectionSide = Side.right then 1 else -1
  let targetDirection : ℚ := if targetConnectionSide = Side.right then 1 else -1
  (⟨start.x + sourceDirection * adaptiveDistance, start.y⟩,
   ⟨endPt.x + targetDirection * adaptiveDistance, endPt.y⟩)

/-- The ordered curvature trial list of `generateOptimizedCurve`. -/
def curvatureOptions : List ℚ := [3 / 10, 5 / 10, 7 / 10, 9 / 10, 12 / 10]

/-- The candidate curve built inside `generateOptimizedCurve`'s trial loop for
one curvature value. -/
def mkCandidate (start endPt : Point) (sourceConnectionSide targetConnectionSide : Side)
    (curvature : ℚ) : BezierCurve :=
  let cp := calculateControlPoints start endPt sourceConnectionSide targetConnectionSide curvature
  ⟨start, cp.1, cp.2, endPt⟩

/-- edgeUtils.ts `generateAlternativeRoute`: the detour fallback.  `routeAbove`
is `dy > 0`; the vertical offset is `-+ 1.5 * nodeHeight`, the control points
sit at `midY = start.y + dy * 0.5 + verticalOffset` and are offset
horizontally from each anchor by `-+ nodeWidth` per connection side.  The
`nodes`, `sourceId` and `targetId` parameters are accepted and ignored
exactly as in the source: no collision check happens here. -/
def generateAlternativeRoute (start endPt : Point)
    (sourceConnectionSide targetConnectionSide : Side)
    (nodes : List PositionedGraphNode) (nodeWidth nodeHeight : ℚ)
    (sourceId targetId : String) : BezierCurve :=
  let dy := endPt.y - start.y
  let verticalOffset := if dy > 0 then -(nodeHeight * (3 / 2)) else nodeHeight * (3 / 2)
  let midY := start.y + dy * (1 / 2) + verticalOffset
  let control1 : Point :=
    ⟨start.x + (if sourceConnectionSide = Side.right then nodeWidth else -nodeWidth), midY⟩
  let control2 : Point :=
    ⟨endPt.x + (if targetConnectionSide = Side.right then nodeWidth else -nodeWidth), midY⟩
  ⟨start, control1, control2, endPt⟩

/-- The trial loop of `generateOptimizedCurve`: the first curvature in
`curvatureOptions` whose candidate curve does not intersect any other node,
or `none` when every trial collides. -/
def findAcceptedCurvature (start endPt : Point)
    (sourceConnectionSide targetConnectionSide : Side)
    (nodes : List PositionedGraphNode) (nodeWidth nodeHeight : ℚ)
    (sourceId targetId : String) : Option ℚ :=
  curvatureOptions.find? fun curvature =>
    !doesCurveIntersectNodes
      (mkCandidate start endPt sourceConnectionSide targetConnectionSide curvature)
      nodes nodeWidth nodeHeight sourceId targetId

/-- edgeUtils.ts `generateOptimizedCurve`: return the candidate of the first
collision-free curvature trial, else fall back to `generateAlternativeRoute`. -/
def generateOptimizedCurve (start endPt : Point)
    (sourceConnectionSide targetConnectionSide : Side)
    (nodes : List PositionedGraphNode) (nodeWidth nodeHeight : ℚ)
    (sourceId targetId : String) : BezierCurve :=
  match findAcceptedCurvature start endPt sourceConnectionSide targetConnectionSide
      nodes nodeWidth nodeHeight sourceId targetId with
  | some curvature =>
      mkCandidate start endPt sourceConnectionSide targetConnectionSide curvature
  | none =>
      generateAlternativeRoute start endPt sourceConnectionSide targetConnectionSide
        nodes nodeWidth nodeHeight sourceId targetId

/-- One command of an SVG path string.  The source renderers emit path strings
from fixed templates; a string is modelled by its command sequence (the
template makes the string a function of exactly these commands). -/
inductive PathCmd where
  | move (p : Point)
  | line (p : Point)
  | quad (ctrl p : Point)
  | cubic (c1 c2 p : Point)
deriving DecidableEq

/-- edgeUtils.ts `bezierCurveToPath` (the active version, lines 740-743):
the single-command cubic path `M start C control1 control2 end`. -/
def bezierCurveToPath (curve : BezierCurve) : List PathCmd :=
  [PathCmd.move curve.start, PathCmd.cubic curve.control1 curve.control2 curve.endPt]

/-- The earlier related renderer version (edgeUtils.ts lines 218-258): a
3-segment orthogonal path with a vertical spine at `middleX` and two rounded
corners of radius `min (max (minSegment * 0.3) 8) 20`. -/
def bezierCurveToPathCornered (curve : BezierCurve) : List PathCmd :=
  let start := curve.start
  let endPt := curve.endPt
  let middleX := (start.x + endPt.x) / 2
  let horizontalLength1 := |middleX - start.x|
  let horizontalLength2 := |endPt.x - middleX|
  let verticalLength := |endPt.y - start.y|
  let minSegment := min horizontalLength1 (min horizontalLength2 verticalLength)
  let cornerRadius := min (max (minSegment * (3 / 10)) 8) 20
  let goingDown := decide (endPt.y > start.y)
  let goingLeft := decide (start.x > middleX)
  let goingRight := decide (endPt.x > middleX)
  let corner1Start : Point :=
    ⟨middleX - (if goingLeft then -cornerRadius else cornerRadius), start.y⟩
  let corner1End : Point :=
    ⟨middleX, start.y + (if goingDown then cornerRadius else -cornerRadius)⟩
  let corner2Start : Point :=
    ⟨middleX, endPt.y - (if goingDown then cornerRadius else -cornerRadius)⟩
  let corner2End : Point :=
    ⟨middleX + (if goingRight then cornerRadius else -cornerRadius), endPt.y⟩
  [PathCmd.move start, PathCmd.line corner1Start,
   PathCmd.quad ⟨middleX, start.y⟩ corner1End,
   PathCmd.line corner2Start,
   PathCmd.quad ⟨middleX, endPt.y⟩ corner2End,
   PathCmd.line endPt]

/-! ## The interactive layer (D3Graph.tsx) -/

/-- The node footprint constant `NODE_WIDTH = 200` of D3Graph.tsx. -/
def NODE_WIDTH : ℚ := 200

/-- The node footprint constant `NODE_HEIGHT = 100` of D3Graph.tsx. -/
def NODE_HEIGHT : ℚ := 100

/-- A per-edge record produced once per layout pass by D3Graph.tsx's
`edgeConnections` computation: the edge together with its cached
connection sides. -/
structure EdgeConn where
  edge : Edge
  sourceConnectionSide : Side
  targetConnectionSide : Side
deriving DecidableEq

/-- D3Graph.tsx's `layoutNodes.find(n => n.id === id)?.x || 0` read: the
x-coordinate of the first node with the given id, defaulting to 0 when the
id is absent. -/
def lookupNodeX (nodes : List PositionedGraphNode) (id : String) : ℚ :=
  match nodes.find? (fun n => n.id = id) with
  | some n => n.x
  | none => 0

/-- The y-coordinate analogue of `lookupNodeX` (`?.y || 0`). -/
def lookupNodeY (nodes : List PositionedGraphNode) (id : String) : ℚ :=
  match nodes.find? (fun n => n.id = id) with
  | some n => n.y
  | none => 0

/-- D3Graph.tsx lines 320-335 (`edgeConnections`): per edge, look up the
endpoint nodes (absent ids default to x = 0) and cache
`sourceConnectionSide = right, targetConnectionSide = left` when
`sourceX < targetX`, the reversed pair otherwise. -/
def computeEdgeConnections (nodes : List PositionedGraphNode) (edges : List Edge) :
    List EdgeConn :=
  edges.map fun e =>
    let sourceX := lookupNodeX nodes e.source
    let targetX := lookupNodeX nodes e.target
    ⟨e, if sourceX < targetX then Side.right else Side.left,
        if sourceX < targetX then Side.left else Side.right⟩

/-- The anchor-point formula of D3Graph.tsx (initial render lines 365-377 and
drag handler lines 530-542): the endpoint's center offset horizontally by
`NODE_WIDTH / 2` toward its connection side. -/
def anchorPoint (side : Side) (cx cy : ℚ) : Point :=
  ⟨if side = Side.right then cx + NODE_WIDTH / 2 else cx - NODE_WIDTH / 2, cy⟩

/-- D3Graph.tsx initial link rendering (lines 357-392), returning the routed
curve: `none` models the `return ''` taken when either endpoint id is absent
from the node set. -/
def routeEdgeCurve (nodes : List PositionedGraphNode) (c : EdgeConn) :
    Option BezierCurve :=
  match nodes.find? (fun n => n.id = c.edge.source),
        nodes.find? (fun n => n.id = c.edge.target) with
  | some sourceNode, some targetNode =>
      let start := anchorPoint c.sourceConnectionSide sourceNode.x sourceNode.y
      let endPt := anchorPoint c.targetConnectionSide targetNode.x targetNode.y
      some (generateOptimizedCurve start endPt
        c.sourceConnectionSide c.targetConnectionSide nodes
        NODE_WIDTH NODE_HEIGHT c.edge.source c.edge.target)
  | _, _ => none

/-- The rendered path of one edge at layout time: the routed curve through
`bezierCurveToPath`, or the empty path (the source's `''`) for a skipped
edge. -/
def renderEdgePath (nodes : List PositionedGraphNode) (c : EdgeConn) : List PathCmd :=
  match routeEdgeCurve nodes c with
  | some curve => bezierCurveToPath curve
  | none => []

/-- The state the drag handler operates on: the live node positions (the
mutable `layoutNodes` array), the per-layout cached `edgeConnections`, and
the rendered path of each edge (`paths` is index-aligned with `conns`). -/
structure GraphState where
  layoutNodes : List PositionedGraphNode
  conns : List EdgeConn
  paths : List (List PathCmd)
deriving DecidableEq

/-- The in-place position overwrite of the drag handler
(`d.x = event.x; d.y = event.y` plus the matching `layoutNodes` entry):
the first node with the dragged id gets the tick position. -/
def updateFirst (nodes : List PositionedGraphNode) (id : String) (px py : ℚ) :
    List PositionedGraphNode :=
  match nodes with
  | [] => []
  | n :: rest =>
      if n.id = id then { n with x := px, y := py } :: rest
      else n :: updateFirst rest id px py

/-- The per-edge recomputation of D3Graph.tsx's `dragged` (lines 523-556):
for an edge touching the dragged node, each endpoint coordinate is the tick
position when the endpoint is the dragged node and otherwise the
(default-0) lookup in the live node array; the anchors are built from those
coordinates and the cached sides, and the router is re-invoked. -/
def dragReroutedPath (nodes : List PositionedGraphNode) (dragId : String)
    (px py : ℚ) (c : EdgeConn) : List PathCmd :=
  let sourceX := if c.edge.source = dragId then px else lookupNodeX nodes c.edge.source
  let sourceY := if c.edge.source = dragId then py else lookupNodeY nodes c.edge.source
  let targetX := if c.edge.target = dragId then px else lookupNodeX nodes c.edge.target
  let targetY := if c.edge.target = dragId then py else lookupNodeY nodes c.edge.target
  let start := anchorPoint c.sourceConnectionSide sourceX sourceY
  let endPt := anchorPoint c.targetConnectionSide targetX targetY
  bezierCurveToPath (generateOptimizedCurve start endPt
    c.sourceConnectionSide c.targetConnectionSide nodes
    NODE_WIDTH NODE_HEIGHT c.edge.source c.edge.target)

/-- One drag-move tick (D3Graph.tsx `dragged`, lines 494-559): overwrite the
dragged node's live position, then replace the path of every edge whose
source or target id equals the dragged id with the re-routed path, leaving
every other edge's path untouched.  The connection sides are read from the
cached `conns` and never written. -/
def dragTick (st : GraphState) (dragId : String) (px py : ℚ) : GraphState :=
  let nodes := updateFirst st.layoutNodes dragId px py
  let newPaths := (st.conns.zip st.paths).map fun cp =>
    if cp.1.edge.source = dragId ∨ cp.1.edge.target = dragId then
      dragReroutedPath nodes dragId px py cp.1
    else cp.2
  ⟨nodes, st.conns, newPaths⟩

/-- The anchor recomputation described by the drag handler, phrased purely in
terms of the live node store: both endpoints read through the (default-0)
position lookup.  Under `dragTick` this coincides with `dragReroutedPath`
whenever the dragged id is present in the node list. -/
def liveReroutedPath (nodes : List PositionedGraphNode) (c : EdgeConn) : List PathCmd :=
  let start := anchorPoint c.sourceConnectionSide
    (lookupNodeX nodes c.edge.source) (lookupNodeY nodes c.edge.source)
  let endPt := anchorPoint c.targetConnectionSide
    (lookupNodeX nodes c.edge.target) (lookupNodeY nodes c.edge.target)
  bezierCurveToPath (generateOptimizedCurve start endPt
    c.sourceConnectionSide c.targetConnectionSide nodes
    NODE_WIDTH NODE_HEIGHT c.edge.source c.edge.target)

/-! ## Selection state (D3Graph.tsx) -/

/-- D3Graph.tsx `handleNodeClick` (lines 133-142): clicking the selected node
clears the selection, clicking any other node replaces it. -/
def handleNodeClick (prevSelected : Option String) (nodeId : String) : Option String :=
  if prevSelected = some nodeId then none else some nodeId

/-- The connected-id set of the selection effect (lines 642-653): targets of
edges leaving the selected node and sources of edges entering it. -/
def connectedNodeIds (edges : List Edge) (selectedId : String) : List String :=
  edges.foldl (fun acc e =>
    let acc := if e.source = selectedId then acc ++ [e.target] else acc
    if e.target = selectedId then acc ++ [e.source] else acc) []

/-- The selection-dependent attributes the selection effect writes on one
edge: its `stroke-opacity` and whether its arrowhead marker is the faded
variant (the normal marker is chosen by the edge's access kind). -/
structure EdgeVisual where
  strokeOpacity : ℚ
  fadedMarker : Bool
deriving DecidableEq

/-- The three CSS classes the selection effect toggles on one node. -/
structure NodeVisual where
  selected : Bool
  connected : Bool
  unselected : Bool
deriving DecidableEq

/-- The selection-controlled visual state of the rendered scene: one
`EdgeVisual` per edge and one `NodeVisual` per node id, index-aligned with
the input lists. -/
structure VisualState where
  edgeVisuals : List EdgeVisual
  nodeVisuals : List NodeVisual
deriving DecidableEq

/-- The visual state right after the initial render (D3Graph.tsx lines
343-347: `stroke-opacity` 1 and the standard access marker on every edge;
no selection classes on any node). -/
def initialRenderVisual (edges : List Edge) (nodeIds : List String) : VisualState :=
  ⟨edges.map fun _ => ⟨1, false⟩, nodeIds.map fun _ => ⟨false, false, false⟩⟩

/-- The selection effect (D3Graph.tsx lines 578-673): it overwrites every
edge's opacity and marker and every node's three selection classes as a
function of the current selection.  With no selection every edge gets
opacity 1 and its standard marker and every class is cleared; with a
selected id, edges touching it keep opacity 1 and the normal marker, all
others get opacity 0 and the faded marker, and nodes are classed
selected / connected / unselected. -/
def applySelectionEffect (edges : List Edge) (nodeIds : List String)
    (selectedNodeId : Option String) : VisualState :=
  match selectedNodeId with
  | none =>
      ⟨edges.map fun _ => ⟨1, false⟩, nodeIds.map fun _ => ⟨false, false, false⟩⟩
  | some s =>
      let conn := connectedNodeIds edges s
      ⟨edges.map fun e =>
         let isConnected := decide (e.source = s) || decide (e.target = s)
         ⟨if isConnected then 1 else 0, !isConnected⟩,
       nodeIds.map fun nid =>
         ⟨decide (nid = s), conn.contains nid,
          !decide (nid = s) && !conn.contains nid⟩⟩

/-! ## Concrete scenarios -/

/-- The spec's end-to-end obstruction scenario: nodes A(0,0) and B(400,0)
with obstructing node C(200,0), footprint 200 x 100. -/
def nodesC3 : List PositionedGraphNode := [⟨"A", 0, 0⟩, ⟨"B", 400, 0⟩, ⟨"C", 200, 0⟩]

/-- The edge A -> B of the obstruction scenario. -/
def edgeC3 : Edge := ⟨"A", "B", Access.allow⟩

/-- The curve the router returns for A -> B in the obstruction scenario
(anchors at the connection-side boundaries: (100,0) and (300,0)). -/
def curveC3 : BezierCurve :=
  generateOptimizedCurve ⟨100, 0⟩ ⟨300, 0⟩ Side.right Side.left nodesC3 200 100 "A" "B"

/-- Two nodes A(0,0), B(400,0) for the layout-pass / drag scenarios. -/
def nodesAB : List PositionedGraphNode := [⟨"A", 0, 0⟩, ⟨"B", 400, 0⟩]

/-- The edge A -> B of the two-node scenario. -/
def edgeAB : Edge := ⟨"A", "B", Access.allow⟩

/-- The connection record the layout pass computes for `edgeAB` over
`nodesAB` (source left of target, so sides are right / left). -/
def connAB : EdgeConn := ⟨edgeAB, Side.right, Side.left⟩

/-- The rendered state of the two-node scenario after layout. -/
def stAB : GraphState := ⟨nodesAB, [connAB], [renderEdgePath nodesAB connAB]⟩

/-- Three nodes A(0,0), B(400,0), K(800,0) for the drag-consistency
scenario: dragging A touches edge A -> B but not edge B -> K. -/
def nodesC6 : List PositionedGraphNode := [⟨"A", 0, 0⟩, ⟨"B", 400, 0⟩, ⟨"K", 800, 0⟩]

/-- The connection record of the non-adjacent edge B -> K. -/
def connBK : EdgeConn := ⟨⟨"B", "K", Access.allow⟩, Side.right, Side.left⟩

/-- The rendered state of the drag-consistency scenario after layout. -/
def stC6 : GraphState :=
  ⟨nodesC6, [connAB, connBK],
   [renderEdgePath nodesC6 connAB, renderEdgePath nodesC6 connBK]⟩

/-- A single node A(0,0) for the missing-reference scenario. -/
def nodesC9 : List PositionedGraphNode := [⟨"A", 0, 0⟩]

/-- An edge whose target id "X" names no node in `nodesC9`. -/
def edgeC9 : Edge := ⟨"A", "X", Access.allow⟩

/-- The connection record the layout pass computes for `edgeC9` over
`nodesC9` (both lookups default to 0, so `sourceX < targetX` is false). -/
def connC9 : EdgeConn := ⟨edgeC9, Side.left, Side.right⟩

/-- The rendered state of the missing-reference scenario: the dangling edge's
path is the empty path produced by the initial render. -/
def stC9 : GraphState := ⟨nodesC9, [connC9], [renderEdgePath nodesC9 connC9]⟩

/-- A concrete curve used to compare the two renderer versions. -/
def curveC7 : BezierCurve := ⟨⟨0, 0⟩, ⟨120, 0⟩, ⟨180, 100⟩, ⟨300, 100⟩⟩

/-! ## Helper lemmas -/

/-- A collision-free verdict of `doesCurveIntersectNodes` means every one of
the 18 interior samples `t = i/19` avoids the rectangle of every node other
than the source and target. -/
theorem samples_clear_of_not_intersect (curve : BezierCurve)
    (nodes : List PositionedGraphNode) (w hgt : ℚ) (sid tid : String)
    (hfalse : doesCurveIntersectNodes curve nodes w hgt sid tid = false) :
    ∀ i ∈ List.range' 1 18, ∀ n ∈ nodes, n.id ≠ sid → n.id ≠ tid →
      isPointInNode (getBezierPoint curve ((i : ℚ) / 19)) ⟨n.x, n.y, w, hgt⟩ = false := by
  intro i hi n hn hs ht
  by_contra hcon
  rw [Bool.not_eq_false] at hcon
  have htrue : doesCurveIntersectNodes curve nodes w hgt sid tid = true := by
    simp only [doesCurveIntersectNodes, List.any_eq_true]
    refine ⟨i, by simpa using hi, ?_⟩
    refine ⟨n, hn, ?_⟩
    rw [if_neg (by push_neg; exact ⟨hs, ht⟩)]
    have h19 : (((20 : ℕ) : ℚ) - 1) = 19 := by norm_num
    rw [h19]
    exact hcon
  rw [hfalse] at htrue
  exact Bool.false_ne_true htrue

/-- Indexing a zip at a position where both lists are defined. -/
theorem getElem?_zip_of_some {α β : Type} {l₁ : List α} {l₂ : List β} {i : ℕ}
    {a : α} {b : β} (h₁ : l₁[i]? = some a) (h₂ : l₂[i]? = some b) :
    (l₁.zip l₂)[i]? = some (a, b) := by
  induction l₁ generalizing l₂ i with
  | nil => simp at h₁
  | cons x xs ih =>
    cases l₂ with
    | nil => simp at h₂
    | cons y ys =>
      cases i with
      | zero =>
        simp only [List.getElem?_cons_zero, Option.some.injEq] at h₁ h₂
        simp [List.zip_cons_cons, h₁, h₂]
      | succ k =>
        simp only [List.getElem?_cons_succ] at h₁ h₂
        simpa [List.zip_cons_cons] using ih h₁ h₂

/-- After the drag handler's in-place overwrite, looking up the dragged id
yields the tick x-position (provided the id occurs in the node list). -/
theorem lookupNodeX_updateFirst (nodes : List PositionedGraphNode) (id : String)
    (px py : ℚ) (h : ∃ n ∈ nodes, n.id = id) :
    lookupNodeX (updateFirst nodes id px py) id = px := by
  induction nodes with
  | nil => simp at h
  | cons m rest ih =>
    by_cases hm : m.id = id
    · simp [updateFirst, hm, lookupNodeX, List.find?]
    · have h' : ∃ n ∈ rest, n.id = id := by
        rcases h with ⟨n, hn, hid⟩
        rcases List.mem_cons.1 hn with rfl | hmem
        · exact absurd hid hm
        · exact ⟨n, hmem, hid⟩
      simpa [updateFirst, hm, lookupNodeX, List.find?] using ih h'

/-- The y-coordinate analogue of `lookupNodeX_updateFirst`. -/
theorem lookupNodeY_updateFirst (nodes : List PositionedGraphNode) (id : String)
    (px py : ℚ) (h : ∃ n ∈ nodes, n.id = id) :
    lookupNodeY (updateFirst nodes id px py) id = py := by
  induction nodes with
  | nil => simp at h
  | cons m rest ih =>
    by_cases hm : m.id = id
    · simp [updateFirst, hm, lookupNodeY, List.find?]
    · have h' : ∃ n ∈ rest, n.id = id := by
        rcases h with ⟨n, hn, hid⟩
        rcases List.mem_cons.1 hn with rfl | hmem
        · exact absurd hid hm
        · exact ⟨n, hmem, hid⟩
      simpa [updateFirst, hm, lookupNodeY, List.find?] using ih h'

/-- What one drag tick does to the path at a given edge index: touching edges
get the re-routed path, others keep their old path. -/
theorem dragTick_paths_getElem (st : GraphState) (dragId : String) (px py : ℚ)
    (i : ℕ) (c : EdgeConn) (p : List PathCmd)
    (hc : st.conns[i]? = some c) (hp : st.paths[i]? = some p) :
    (dragTick st dragId px py).paths[i]? =
      some (if c.edge.source = dragId ∨ c.edge.target = dragId then
              dragReroutedPath (updateFirst st.layoutNodes dragId px py) dragId px py c
            else p) := by
  have hz := getElem?_zip_of_some hc hp
  simp only [dragTick, List.getElem?_map, hz]
  rfl

/-- When the dragged id is present in the live node store, the drag handler's
per-endpoint choice (tick position for the dragged endpoint, lookup for the
other) coincides with reading both endpoints from the store. -/
theorem dragReroutedPath_eq_live (nodes : List PositionedGraphNode) (dragId : String)
    (px py : ℚ) (c : EdgeConn)
    (hx : lookupNodeX nodes dragId = px) (hy : lookupNodeY nodes dragId = py) :
    dragReroutedPath nodes dragId px py c = liveReroutedPath nodes c := by
  unfold dragReroutedPath liveReroutedPath
  by_cases hs : c.edge.source = dragId <;> by_cases ht : c.edge.target = dragId <;>
    simp [hs, ht, hx, hy]

/-! ## Claim theorems -/

/-- Claim C10: for every input, the curve returned by `generateOptimizedCurve`
— whether an accepted curvature trial or the detour fallback — has its
`start` field equal to the given start anchor and its `endPt` field equal to
the given end anchor: routing only chooses control points, never moves the
endpoints. -/
theorem router_preserves_endpoints (start endPt : Point) (ss ts : Side)
    (nodes : List PositionedGraphNode) (w hgt : ℚ) (sid tid : String) :
    (generateOptimizedCurve start endPt ss ts nodes w hgt sid tid).start = start ∧
    (generateOptimizedCurve start endPt ss ts nodes w hgt sid tid).endPt = endPt := by
  unfold generateOptimizedCurve
  cases findAcceptedCurvature start endPt ss ts nodes w hgt sid tid <;> exact ⟨rfl, rfl⟩

/-- Claim C2 (refuted, code bug): `calculateControlPoints` never reads its
`curvature` argument, so every curvature multiplier in the trial list
produces the same control points — no input yields distinct control points
for distinct multipliers.  Concretely, the multipliers 0.3 and 1.2 both map
the scenario anchors (100,0) -> (300,0) to the identical control pair
((220,0), (180,0)). -/
theorem calculateControlPoints_ignores_curvature (start endPt : Point)
    (ss ts : Side) (c c' : ℚ) :
    calculateControlPoints start endPt ss ts c = calculateControlPoints start endPt ss ts c' ∧
    calculateControlPoints ⟨100, 0⟩ ⟨300, 0⟩ Side.right Side.left (3 / 10) =
      (⟨220, 0⟩, ⟨180, 0⟩) ∧
    calculateControlPoints ⟨100, 0⟩ ⟨300, 0⟩ Side.right Side.left (12 / 10) =
      (⟨220, 0⟩, ⟨180, 0⟩) :=
  ⟨rfl, by decide, by decide⟩

/-- Claim C7 counterexample: on a concrete curve the active renderer's output
differs from the 3-segment rounded-corner spine path the claim describes —
it has only 2 commands, so it cannot contain a vertical spine plus two
horizontal segments plus two corner arcs. -/
theorem renderer_not_spine_counterexample :
    bezierCurveToPath curveC7 ≠ bezierCurveToPathCornered curveC7 ∧
    (bezierCurveToPath curveC7).length = 2 := by decide

/-- Claim C7 (amended): the active path renderer emits, for every curve, the
single cubic command path `M start C control1 control2 end`; the
vertical-spine rendering with corner radius `clamp(0.3 * min, 8, 20)` exists
only in the earlier related renderer version (`bezierCurveToPathCornered`). -/
theorem renderer_emits_single_cubic (curve : BezierCurve) :
    bezierCurveToPath curve =
      [PathCmd.move curve.start, PathCmd.cubic curve.control1 curve.control2 curve.endPt] :=
  rfl

/-- Claim C8: clicking toggles the selection (clicking the selected node
clears it, clicking any other node replaces it), and after selecting `a` and
clicking `a` again the selection is empty and the selection effect restores
exactly the initial-render visual state: every edge at opacity 1 with its
standard marker, no node carrying a selected / connected / unselected
class. -/
theorem selection_toggle_roundtrip (edges : List Edge) (nodeIds : List String)
    (a : String) (prev : Option String) (b : String) :
    handleNodeClick prev b = (if prev = some b then none else some b) ∧
    handleNodeClick (handleNodeClick none a) a = none ∧
    applySelectionEffect edges nodeIds (handleNodeClick (handleNodeClick none a) a) =
      initialRenderVisual edges nodeIds ∧
    applySelectionEffect edges nodeIds none = initialRenderVisual edges nodeIds := by
  have htoggle : handleNodeClick (handleNodeClick none a) a = none := by
    simp [handleNodeClick]
  exact ⟨rfl, htoggle, by rw [htoggle]; rfl, rfl⟩

/-- Claim C3 counterexample: in the A/B/C obstruction scenario the routed
curve is indeed not the first candidate, but its sampled interior points are
not all outside C's rectangle (the sample at t = 1/19 lies inside), so the
claimed conjunction fails. -/
theorem obstructed_route_counterexample :
    ¬ (curveC3 ≠ mkCandidate ⟨100, 0⟩ ⟨300, 0⟩ Side.right Side.left (3 / 10) ∧
       ∀ i ∈ List.range' 1 18,
         isPointInNode (getBezierPoint curveC3 ((i : ℚ) / 19)) ⟨200, 0, 200, 100⟩ = false) := by
  decide

/-- Claim C3 (amended): in the obstruction scenario the layout pass yields
sides right / left, routing A -> B rejects every curvature trial (so the
result is not the first candidate) and returns the detour fallback — whose
sampled point at t = 1/19 lies inside C's rectangle: the returned curve does
not avoid C. -/
theorem obstructed_route_returns_colliding_fallback :
    computeEdgeConnections nodesC3 [edgeC3] = [⟨edgeC3, Side.right, Side.left⟩] ∧
    routeEdgeCurve nodesC3 ⟨edgeC3, Side.right, Side.left⟩ = some curveC3 ∧
    findAcceptedCurvature ⟨100, 0⟩ ⟨300, 0⟩ Side.right Side.left nodesC3 200 100 "A" "B" = none ∧
    curveC3 = generateAlternativeRoute ⟨100, 0⟩ ⟨300, 0⟩ Side.right Side.left
      nodesC3 200 100 "A" "B" ∧
    curveC3 ≠ mkCandidate ⟨100, 0⟩ ⟨300, 0⟩ Side.right Side.left (3 / 10) ∧
    isPointInNode (getBezierPoint curveC3 (1 / 19)) ⟨200, 0, 200, 100⟩ = true := by
  refine ⟨by decide, by decide, by decide, by decide, by decide, by decide⟩

/-- Claim C4: whenever no curvature trial is collision-free,
`generateOptimizedCurve` returns the detour route whose two control points
share the y-coordinate `(start.y + end.y)/2` displaced by `1.5 * nodeHeight`
— with negative sign when `end.y - start.y > 0` and positive sign when it is
negative (i.e. opposite the sign of `end.y - start.y`) — and whose
x-coordinates offset each anchor by `nodeWidth` toward its connection side.
The equation holds under no other condition: the fallback is returned
unconditionally, with no collision check of its own. -/
theorem fallback_detour_shape (start endPt : Point) (ss ts : Side)
    (nodes : List PositionedGraphNode) (w hgt : ℚ) (sid tid : String)
    (hnone : findAcceptedCurvature start endPt ss ts nodes w hgt sid tid = none) :
    generateOptimizedCurve start endPt ss ts nodes w hgt sid tid =
      { start := start
        control1 := ⟨start.x + (if ss = Side.right then w else -w),
          (start.y + endPt.y) / 2 +
            (if endPt.y - start.y > 0 then -(hgt * (3 / 2)) else hgt * (3 / 2))⟩
        control2 := ⟨endPt.x + (if ts = Side.right then w else -w),
          (start.y + endPt.y) / 2 +
            (if endPt.y - start.y > 0 then -(hgt * (3 / 2)) else hgt * (3 / 2))⟩
        endPt := endPt } ∧
    (0 < endPt.y - start.y →
      (if endPt.y - start.y > 0 then -(hgt * (3 / 2)) else hgt * (3 / 2)) = -(hgt * (3 / 2))) ∧
    (endPt.y - start.y < 0 →
      (if endPt.y - start.y > 0 then -(hgt * (3 / 2)) else hgt * (3 / 2)) = hgt * (3 / 2)) := by
  refine ⟨?_, fun h => if_pos h, fun h => if_neg (by linarith)⟩
  simp only [generateOptimizedCurve, hnone, generateAlternativeRoute]
  have hmid : ∀ off : ℚ, start.y + (endPt.y - start.y) * (1 / 2) + off =
      (start.y + endPt.y) / 2 + off := by
    intro off; ring
  rw [hmid]

/-- Claim C4 witness: in the obstruction scenario every trial collides, and
the returned fallback is the concrete detour curve with both control points
at height 150 = 0 + 1.5 * 100 and x-offsets of one node width. -/
theorem fallback_detour_shape_witness :
    generateOptimizedCurve ⟨100, 0⟩ ⟨300, 0⟩ Side.right Side.left nodesC3 200 100 "A" "B" =
      ⟨⟨100, 0⟩, ⟨300, 150⟩, ⟨100, 150⟩, ⟨300, 0⟩⟩ := by
  have h := (fallback_detour_shape ⟨100, 0⟩ ⟨300, 0⟩ Side.right Side.left
    nodesC3 200 100 "A" "B" (by decide)).1
  rw [h]
  decide

/-- Claim C5: every connection record a layout pass computes carries
`sourceConnectionSide = right, targetConnectionSide = left` exactly when the
source node's (default-0) x is strictly less than the target node's, the
reversed pair otherwise; and a drag tick never modifies the cached
connection records, whatever position the dragged node is moved to. -/
theorem connection_sides_fixed_per_layout (nodes : List PositionedGraphNode)
    (edges : List Edge) :
    (∀ c ∈ computeEdgeConnections nodes edges,
      c.sourceConnectionSide =
        (if lookupNodeX nodes c.edge.source < lookupNodeX nodes c.edge.target
         then Side.right else Side.left) ∧
      c.targetConnectionSide =
        (if lookupNodeX nodes c.edge.source < lookupNodeX nodes c.edge.target
         then Side.left else Side.right)) ∧
    ∀ (st : GraphState) (dragId : String) (px py : ℚ),
      (dragTick st dragId px py).conns = st.conns := by
  constructor
  · intro c hc
    simp only [computeEdgeConnections, List.mem_map] at hc
    rcases hc with ⟨e, he, rfl⟩
    exact ⟨rfl, rfl⟩
  · intro st dragId px py
    rfl

/-- Claim C5 witness: with A at x = 0 left of B at x = 400 the layout pass
caches sides right / left for A -> B, and dragging A to x = 500 — past B's
x-coordinate — leaves the cached connection records unchanged. -/
theorem connection_sides_fixed_per_layout_witness :
    connAB ∈ computeEdgeConnections nodesAB [edgeAB] ∧
    connAB.sourceConnectionSide =
      (if lookupNodeX nodesAB connAB.edge.source < lookupNodeX nodesAB connAB.edge.target
       then Side.right else Side.left) ∧
    (dragTick stAB "A" 500 0).conns = stAB.conns :=
  ⟨by decide,
   ((connection_sides_fixed_per_layout nodesAB [edgeAB]).1 connAB (by decide)).1,
   (connection_sides_fixed_per_layout nodesAB [edgeAB]).2 stAB "A" 500 0⟩

/-- Claim C9 counterexample: for the edge A -> X whose target id is absent,
the initial render does leave the path empty, but the drag-move tick does
not skip it: dragging A re-routes the edge, replacing the empty path. -/
theorem missing_reference_drag_counterexample :
    computeEdgeConnections nodesC9 [edgeC9] = [connC9] ∧
    renderEdgePath nodesC9 connC9 = [] ∧
    (dragTick stC9 "A" 50 50).paths[0]? ≠ some ([] : List PathCmd) := by decide

/-- Claim C9 (amended): the initial layout render skips an edge whose source
or target id is absent (its path is the empty path and the router is never
invoked), but a drag-move tick does not skip such an edge: every edge
touching the dragged node — including one whose other endpoint is missing —
is re-routed, with absent endpoints read through the default-0 position
lookup.  Both passes are total functions: neither aborts. -/
theorem missing_reference_skip_amended :
    (∀ (nodes : List PositionedGraphNode) (c : EdgeConn),
      (nodes.find? (fun n => n.id = c.edge.source) = none ∨
       nodes.find? (fun n => n.id = c.edge.target) = none) →
      renderEdgePath nodes c = []) ∧
    (∀ (st : GraphState) (dragId : String) (px py : ℚ) (i : ℕ)
       (c : EdgeConn) (p : List PathCmd),
      st.conns[i]? = some c → st.paths[i]? = some p →
      (c.edge.source = dragId ∨ c.edge.target = dragId) →
      (dragTick st dragId px py).paths[i]? =
        some (dragReroutedPath (updateFirst st.layoutNodes dragId px py) dragId px py c)) := by
  constructor
  · intro nodes c h
    unfold renderEdgePath routeEdgeCurve
    rcases hs : nodes.find? (fun n => n.id = c.edge.source) with _ | sn
    · simp [hs]
    · rcases ht : nodes.find? (fun n => n.id = c.edge.target) with _ | tn
      · simp [hs, ht]
      · rcases h with h | h
        · rw [hs] at h; exact absurd h (by simp)
        · rw [ht] at h; exact absurd h (by simp)
  · intro st dragId px py i c p hc hp htouch
    have h := dragTick_paths_getElem st dragId px py i c p hc hp
    rwa [if_pos htouch] at h

/-- Claim C9 witness: concretely, the dangling edge A -> X renders as the
empty path at layout time, yet the drag tick on A replaces that empty path
with the re-routed one. -/
theorem missing_reference_skip_amended_witness :
    renderEdgePath nodesC9 connC9 = [] ∧
    (dragTick stC9 "A" 50 50).paths[0]? =
      some (dragReroutedPath (updateFirst nodesC9 "A" 50 50) "A" 50 50 connC9) :=
  ⟨missing_reference_skip_amended.1 nodesC9 connC9 (Or.inr (by decide)),
   missing_reference_skip_amended.2 stC9 "A" 50 50 0 connC9
     (renderEdgePath nodesC9 connC9) rfl rfl (Or.inl rfl)⟩

/-- Claim C6: on a drag-move tick the dragged node's live position is
overwritten with the tick position before any routing happens (so the
position lookups below read the new value), and then exactly the edges whose
source or target id equals the dragged id have their path replaced by the
re-routed path computed from the endpoints' current live positions and the
cached connection sides, while every other edge's path stays identical to
its pre-drag value. -/
theorem drag_tick_updates_exactly_touching_edges (st : GraphState) (dragId : String)
    (px py : ℚ) (hpresent : ∃ n ∈ st.layoutNodes, n.id = dragId) :
    lookupNodeX (dragTick st dragId px py).layoutNodes dragId = px ∧
    lookupNodeY (dragTick st dragId px py).layoutNodes dragId = py ∧
    ∀ (i : ℕ) (c : EdgeConn) (p : List PathCmd),
      st.conns[i]? = some c → st.paths[i]? = some p →
      ((c.edge.source = dragId ∨ c.edge.target = dragId) →
        (dragTick st dragId px py).paths[i]? =
          some (liveReroutedPath (dragTick st dragId px py).layoutNodes c)) ∧
      (¬(c.edge.source = dragId ∨ c.edge.target = dragId) →
        (dragTick st dragId px py).paths[i]? = some p) := by
  have hnodes : (dragTick st dragId px py).layoutNodes =
      updateFirst st.layoutNodes dragId px py := rfl
  have hx : lookupNodeX (updateFirst st.layoutNodes dragId px py) dragId = px :=
    lookupNodeX_updateFirst st.layoutNodes dragId px py hpresent
  have hy : lookupNodeY (updateFirst st.layoutNodes dragId px py) dragId = py :=
    lookupNodeY_updateFirst st.layoutNodes dragId px py hpresent
  refine ⟨by rw [hnodes]; exact hx, by rw [hnodes]; exact hy, ?_⟩
  intro i c p hc hp
  have h := dragTick_paths_getElem st dragId px py i c p hc hp
  constructor
  · intro htouch
    rw [if_pos htouch] at h
    rw [hnodes, ← dragReroutedPath_eq_live _ _ _ _ _ hx hy]
    exact h
  · intro hnot
    rwa [if_neg hnot] at h

/-- Claim C6 witness: dragging A to (10,20) in the three-node scenario
overwrites A's live x, re-routes the touching edge A -> B from the live
store, and leaves the path of the non-adjacent edge B -> K exactly as the
initial render produced it. -/
theorem drag_tick_updates_exactly_touching_edges_witness :
    lookupNodeX (dragTick stC6 "A" 10 20).layoutNodes "A" = 10 ∧
    (dragTick stC6 "A" 10 20).paths[0]? =
      some (liveReroutedPath (dragTick stC6 "A" 10 20).layoutNodes connAB) ∧
    (dragTick stC6 "A" 10 20).paths[1]? = some (renderEdgePath nodesC6 connBK) := by
  have h := drag_tick_updates_exactly_touching_edges stC6 "A" 10 20 (by decide)
  refine ⟨h.1, ?_, ?_⟩
  · exact (h.2.2 0 connAB (renderEdgePath nodesC6 connAB) rfl rfl).1 (Or.inl rfl)
  · exact (h.2.2 1 connBK (renderEdgePath nodesC6 connBK) rfl rfl).2 (by decide)

/-- Claim C1: whenever the returned curve comes from a curvature trial (the
trial search succeeds with some accepted curvature), the returned curve is
that trial's candidate and each of its 18 sampled interior points
t = 1/19 .. 18/19 lies outside the nodeWidth x nodeHeight rectangle of every
node except the edge's own source and target; and the accepted curvature is
the first one in the ordered list [0.3, 0.5, 0.7, 0.9, 1.2] whose candidate
passes the collision test — the search short-circuits there. -/
theorem accepted_trial_sound_and_first (start endPt : Point) (ss ts : Side)
    (nodes : List PositionedGraphNode) (w hgt : ℚ) (sid tid : String) :
    (∀ k : ℚ, findAcceptedCurvature start endPt ss ts nodes w hgt sid tid = some k →
      generateOptimizedCurve start endPt ss ts nodes w hgt sid tid =
        mkCandidate start endPt ss ts k ∧
      ∀ i ∈ List.range' 1 18, ∀ n ∈ nodes, n.id ≠ sid → n.id ≠ tid →
        isPointInNode (getBezierPoint (mkCandidate start endPt ss ts k) ((i : ℚ) / 19))
          ⟨n.x, n.y, w, hgt⟩ = false) ∧
    (∀ (i : ℕ) (ci : ℚ), curvatureOptions[i]? = some ci →
      doesCurveIntersectNodes (mkCandidate start endPt ss ts ci) nodes w hgt sid tid = false →
      (∀ (j : ℕ) (cj : ℚ), j < i → curvatureOptions[j]? = some cj →
        doesCurveIntersectNodes (mkCandidate start endPt ss ts cj) nodes w hgt sid tid = true) →
      generateOptimizedCurve start endPt ss ts nodes w hgt sid tid =
        mkCandidate start endPt ss ts ci) := by
  constructor
  · intro k hk
    have hk' : curvatureOptions.find?
        (fun curvature => !doesCurveIntersectNodes
          (mkCandidate start endPt ss ts curvature) nodes w hgt sid tid) = some k := hk
    have hpk := List.find?_some hk'
    have hfalse : doesCurveIntersectNodes (mkCandidate start endPt ss ts k)
        nodes w hgt sid tid = false := by simpa using hpk
    refine ⟨?_, samples_clear_of_not_intersect _ _ _ _ _ _ hfalse⟩
    simp only [generateOptimizedCurve, hk]
  · intro i ci hci hpass hfirst
    have hlen : i < 5 := by
      by_contra hge
      rw [List.getElem?_eq_none (by simpa [curvatureOptions] using Nat.le_of_not_lt hge)] at hci
      exact Option.noConfusion hci
    have hfind : findAcceptedCurvature start endPt ss ts nodes w hgt sid tid = some ci := by
      interval_cases i <;>
        simp only [curvatureOptions, List.getElem?_cons_zero, List.getElem?_cons_succ,
          Option.some.injEq] at hci <;> subst hci
      · simp [findAcceptedCurvature, curvatureOptions, List.find?, hpass]
      · simp [findAcceptedCurvature, curvatureOptions, List.find?, hpass,
          hfirst 0 (3 / 10) (by omega) rfl]
      · simp [findAcceptedCurvature, curvatureOptions, List.find?, hpass,
          hfirst 0 (3 / 10) (by omega) rfl, hfirst 1 (5 / 10) (by omega) rfl]
      · simp [findAcceptedCurvature, curvatureOptions, List.find?, hpass,
          hfirst 0 (3 / 10) (by omega) rfl, hfirst 1 (5 / 10) (by omega) rfl,
          hfirst 2 (7 / 10) (by omega) rfl]
      · simp [findAcceptedCurvature, curvatureOptions, List.find?, hpass,
          hfirst 0 (3 / 10) (by omega) rfl, hfirst 1 (5 / 10) (by omega) rfl,
          hfirst 2 (7 / 10) (by omega) rfl, hfirst 3 (9 / 10) (by omega) rfl]
    simp only [generateOptimizedCurve, hfind]

/-- Claim C1 witness: with no nodes besides source and target, the first
curvature 0.3 is accepted and the router returns its candidate. -/
theorem accepted_trial_sound_and_first_witness :
    generateOptimizedCurve ⟨0, 0⟩ ⟨10, 0⟩ Side.right Side.left [] 200 100 "s" "t" =
      mkCandidate ⟨0, 0⟩ ⟨10, 0⟩ Side.right Side.left (3 / 10) :=
  ((accepted_trial_sound_and_first ⟨0, 0⟩ ⟨10, 0⟩ Side.right Side.left
    [] 200 100 "s" "t").1 (3 / 10) (by decide)).1

end DagreViz
